import Mathlib

/-!
# Screen commands and deprecated program entry points (screen.go)

A shallow embedding of `screen.go` of package `tea`:

* the message types declared in the file and the `Msg` values the command
  factories return;
* the deprecated methods of `*Program` that forward to the renderer.

Go's `int` is embedded as `Int`: the factories only store the flags value, no
arithmetic is done on it, so every statement proved for all of `Int` holds for
every machine integer.
-/

namespace Tea

/-! ## Message types -/

/-- Go type `clearScreenMsg struct{}`. -/
structure clearScreenMsg where
deriving DecidableEq, Repr

/-- Go type `enterAltScreenMsg struct{}`. -/
structure enterAltScreenMsg where
deriving DecidableEq, Repr

/-- Go type `exitAltScreenMsg struct{}`. -/
structure exitAltScreenMsg where
deriving DecidableEq, Repr

/-- Go type `enableMouseCellMotionMsg struct{}`. -/
structure enableMouseCellMotionMsg where
deriving DecidableEq, Repr

/-- Go type `enableMouseAllMotionMsg struct{}`. -/
structure enableMouseAllMotionMsg where
deriving DecidableEq, Repr

/-- Go type `disableMouseMsg struct{}`. -/
structure disableMouseMsg where
deriving DecidableEq, Repr

/-- Go type `hideCursorMsg struct{}`. -/
structure hideCursorMsg where
deriving DecidableEq, Repr

/-- Go type `showCursorMsg struct{}`. -/
structure showCursorMsg where
deriving DecidableEq, Repr

/-- Go type `enableBracketedPasteMsg struct{}`. -/
structure enableBracketedPasteMsg where
deriving DecidableEq, Repr

/-- Go type `disableBracketedPasteMsg struct{}`. -/
structure disableBracketedPasteMsg where
deriving DecidableEq, Repr

/-- Go type `requestBackgroundColorMsg struct{}`. -/
structure requestBackgroundColorMsg where
deriving DecidableEq, Repr

/-- Go type `requestForegroundColorMsg struct{}`. -/
structure requestForegroundColorMsg where
deriving DecidableEq, Repr

/-- Go type `requestCursorColorMsg struct{}`. -/
structure requestCursorColorMsg where
deriving DecidableEq, Repr

/-- Go type `enableEnhancedKeyboardMsg struct { flags int }`; an omitted field of
a composite literal takes the zero value, and zero means the default flags. -/
structure enableEnhancedKeyboardMsg where
  flags : Int := 0
deriving DecidableEq, Repr

/-- Go type `disableEnhancedKeyboardMsg struct{}`. -/
structure disableEnhancedKeyboardMsg where
deriving DecidableEq, Repr

/-- Go type `requestEnhancedKeyboardMsg struct{}`. -/
structure requestEnhancedKeyboardMsg where
deriving DecidableEq, Repr

/-- Go type `requestPrimaryDeviceAttributesMsg struct{}`. -/
structure requestPrimaryDeviceAttributesMsg where
deriving DecidableEq, Repr

/-- The interface type `Msg`, restricted to the dynamic types declared in
`screen.go`: an interface value is a dynamic type (the constructor) together
with a value of that type, and two interface values are equal exactly when both
agree. -/
inductive Msg where
  | clearScreenMsg (v : Tea.clearScreenMsg)
  | enterAltScreenMsg (v : Tea.enterAltScreenMsg)
  | exitAltScreenMsg (v : Tea.exitAltScreenMsg)
  | enableMouseCellMotionMsg (v : Tea.enableMouseCellMotionMsg)
  | enableMouseAllMotionMsg (v : Tea.enableMouseAllMotionMsg)
  | disableMouseMsg (v : Tea.disableMouseMsg)
  | hideCursorMsg (v : Tea.hideCursorMsg)
  | showCursorMsg (v : Tea.showCursorMsg)
  | enableBracketedPasteMsg (v : Tea.enableBracketedPasteMsg)
  | disableBracketedPasteMsg (v : Tea.disableBracketedPasteMsg)
  | requestBackgroundColorMsg (v : Tea.requestBackgroundColorMsg)
  | requestForegroundColorMsg (v : Tea.requestForegroundColorMsg)
  | requestCursorColorMsg (v : Tea.requestCursorColorMsg)
  | enableEnhancedKeyboardMsg (v : Tea.enableEnhancedKeyboardMsg)
  | disableEnhancedKeyboardMsg (v : Tea.disableEnhancedKeyboardMsg)
  | requestEnhancedKeyboardMsg (v : Tea.requestEnhancedKeyboardMsg)
  | requestPrimaryDeviceAttributesMsg (v : Tea.requestPrimaryDeviceAttributesMsg)
deriving DecidableEq, Repr

/-! ## Command factories -/

/-- Go: `func ClearScreen() Msg { return clearScreenMsg{} }`. -/
def ClearScreen : Msg := Msg.clearScreenMsg {}

/-- Go: `func EnterAltScreen() Msg { return enterAltScreenMsg{} }`. -/
def EnterAltScreen : Msg := Msg.enterAltScreenMsg {}

/-- Go: `func ExitAltScreen() Msg { return exitAltScreenMsg{} }`. -/
def ExitAltScreen : Msg := Msg.exitAltScreenMsg {}

/-- Go: `func EnableMouseCellMotion() Msg { return enableMouseCellMotionMsg{} }`. -/
def EnableMouseCellMotion : Msg := Msg.enableMouseCellMotionMsg {}

/-- Go: `func EnableMouseAllMotion() Msg { return enableMouseAllMotionMsg{} }`. -/
def EnableMouseAllMotion : Msg := Msg.enableMouseAllMotionMsg {}

/-- Go: `func DisableMouse() Msg { return disableMouseMsg{} }`. -/
def DisableMouse : Msg := Msg.disableMouseMsg {}

/-- Go: `func HideCursor() Msg { return hideCursorMsg{} }`. -/
def HideCursor : Msg := Msg.hideCursorMsg {}

/-- Go: `func ShowCursor() Msg { return showCursorMsg{} }`. -/
def ShowCursor : Msg := Msg.showCursorMsg {}

/-- Go: `func EnableBracketedPaste() Msg { return enableBracketedPasteMsg{} }`. -/
def EnableBracketedPaste : Msg := Msg.enableBracketedPasteMsg {}

/-- Go: `func DisableBracketedPaste() Msg { return disableBracketedPasteMsg{} }`. -/
def DisableBracketedPaste : Msg := Msg.disableBracketedPasteMsg {}

/-- Go: `func RequestBackgroundColor() Msg { return requestBackgroundColorMsg{} }`. -/
def RequestBackgroundColor : Msg := Msg.requestBackgroundColorMsg {}

/-- Go: `func RequestForegroundColor() Msg { return requestForegroundColorMsg{} }`. -/
def RequestForegroundColor : Msg := Msg.requestForegroundColorMsg {}

/-- Go: `func RequestCursorColor() Msg { return requestCursorColorMsg{} }`. -/
def RequestCursorColor : Msg := Msg.requestCursorColorMsg {}

/-- Go: `func EnableEnhancedKeyboard() Msg { return enableEnhancedKeyboardMsg{} }`. -/
def EnableEnhancedKeyboard : Msg := Msg.enableEnhancedKeyboardMsg {}

/-- Go: `func EnableCustomEnhancedKeyboard(flags int) Msg { return enableEnhancedKeyboardMsg{flags} }`. -/
def EnableCustomEnhancedKeyboard (flags : Int) : Msg := Msg.enableEnhancedKeyboardMsg ⟨flags⟩

/-- Go: `func DisableEnhancedKeyboard() Msg { return disableEnhancedKeyboardMsg{} }`. -/
def DisableEnhancedKeyboard : Msg := Msg.disableEnhancedKeyboardMsg {}

/-- Go: `func RequestEnhancedKeyboard() Msg { return requestEnhancedKeyboardMsg{} }`. -/
def RequestEnhancedKeyboard : Msg := Msg.requestEnhancedKeyboardMsg {}

/-- Go: `func RequestPrimaryDeviceAttributes() Msg { return requestPrimaryDeviceAttributesMsg{} }`. -/
def RequestPrimaryDeviceAttributes : Msg := Msg.requestPrimaryDeviceAttributesMsg {}

/-- The zero-argument factories of the catalogue, in source order. -/
def zeroArgFactories : List Msg :=
  [ClearScreen, EnterAltScreen, ExitAltScreen, EnableMouseCellMotion,
   EnableMouseAllMotion, DisableMouse, HideCursor, ShowCursor,
   EnableBracketedPaste, DisableBracketedPaste, RequestBackgroundColor,
   RequestForegroundColor, RequestCursorColor, EnableEnhancedKeyboard,
   DisableEnhancedKeyboard, RequestEnhancedKeyboard,
   RequestPrimaryDeviceAttributes]

/-! ## The program handle and its renderer -/

/-- Run-time panics of the Go program. -/
inductive Panic where
  /-- The panic "invalid memory address or nil pointer dereference". -/
  | nilPointerDereference
deriving DecidableEq, Repr

/-- Modelled from the spec: the `renderer` interface is declared outside
`screen.go`. These are the seven methods the file calls on it (the boundary
operations listed for the renderer collaborator); `ρ` is the state of the value
behind the interface and each method returns that state after the call. -/
structure renderer (ρ : Type) where
  enterAltScreen : ρ → ρ
  exitAltScreen : ρ → ρ
  enableMouseCellMotion : ρ → ρ
  disableMouseCellMotion : ρ → ρ
  enableMouseAllMotion : ρ → ρ
  disableMouseAllMotion : ρ → ρ
  setWindowTitle : String → ρ → ρ

/-- Modelled from the spec: the `Program` struct is declared outside
`screen.go`. The file reads one field, `renderer`, an interface value that is
either nil (`none`) or holds a renderer (`some r`); `rest` stands for all the
other fields of the program handle. -/
structure Program (ρ φ : Type) where
  renderer : Option ρ
  rest : φ
deriving DecidableEq, Repr

/-- The method-call expression `p.renderer.m(...)`: dynamic dispatch on the
interface value held in `p.renderer`. On a nil interface value the call panics;
otherwise the method runs on the renderer and nothing else is assigned. -/
def Program.callRenderer {ρ φ : Type} (m : ρ → ρ) (p : Program ρ φ) :
    Except Panic (Program ρ φ) :=
  match p.renderer with
  | none => Except.error Panic.nilPointerDereference
  | some r => Except.ok { p with renderer := some (m r) }

/-- Go:
```
func (p *Program) EnterAltScreen() {
	if p.renderer != nil {
		p.renderer.enterAltScreen()
	}
}
``` -/
def Program.EnterAltScreen {ρ φ : Type} (impl : Tea.renderer ρ) (p : Program ρ φ) :
    Except Panic (Program ρ φ) :=
  if p.renderer.isSome then
    p.callRenderer impl.enterAltScreen
  else
    Except.ok p

/-- Go:
```
func (p *Program) ExitAltScreen() {
	if p.renderer != nil {
		p.renderer.exitAltScreen()
	}
}
``` -/
def Program.ExitAltScreen {ρ φ : Type} (impl : Tea.renderer ρ) (p : Program ρ φ) :
    Except Panic (Program ρ φ) :=
  if p.renderer.isSome then
    p.callRenderer impl.exitAltScreen
  else
    Except.ok p

/-- Go: `func (p *Program) EnableMouseCellMotion() { p.renderer.enableMouseCellMotion() }`. -/
def Program.EnableMouseCellMotion {ρ φ : Type} (impl : Tea.renderer ρ) (p : Program ρ φ) :
    Except Panic (Program ρ φ) :=
  p.callRenderer impl.enableMouseCellMotion

/-- Go: `func (p *Program) DisableMouseCellMotion() { p.renderer.disableMouseCellMotion() }`. -/
def Program.DisableMouseCellMotion {ρ φ : Type} (impl : Tea.renderer ρ) (p : Program ρ φ) :
    Except Panic (Program ρ φ) :=
  p.callRenderer impl.disableMouseCellMotion

/-- Go: `func (p *Program) EnableMouseAllMotion() { p.renderer.enableMouseAllMotion() }`. -/
def Program.EnableMouseAllMotion {ρ φ : Type} (impl : Tea.renderer ρ) (p : Program ρ φ) :
    Except Panic (Program ρ φ) :=
  p.callRenderer impl.enableMouseAllMotion

/-- Go: `func (p *Program) DisableMouseAllMotion() { p.renderer.disableMouseAllMotion() }`. -/
def Program.DisableMouseAllMotion {ρ φ : Type} (impl : Tea.renderer ρ) (p : Program ρ φ) :
    Except Panic (Program ρ φ) :=
  p.callRenderer impl.disableMouseAllMotion

/-- Go: `func (p *Program) SetWindowTitle(title string) { p.renderer.setWindowTitle(title) }`. -/
def Program.SetWindowTitle {ρ φ : Type} (impl : Tea.renderer ρ) (p : Program ρ φ)
    (title : String) : Except Panic (Program ρ φ) :=
  p.callRenderer (impl.setWindowTitle title)

/-! ## A renderer that records the directives it is sent -/

/-- One call of a renderer method, with its argument. -/
inductive Directive where
  | enterAltScreen
  | exitAltScreen
  | enableMouseCellMotion
  | disableMouseCellMotion
  | enableMouseAllMotion
  | disableMouseAllMotion
  | setWindowTitle (title : String)
deriving DecidableEq, Repr

/-- A renderer whose state is the log of the method calls made on it, oldest
first: every method appends its own directive and does nothing else. -/
def recorder : Tea.renderer (List Directive) where
  enterAltScreen log := log ++ [Directive.enterAltScreen]
  exitAltScreen log := log ++ [Directive.exitAltScreen]
  enableMouseCellMotion log := log ++ [Directive.enableMouseCellMotion]
  disableMouseCellMotion log := log ++ [Directive.disableMouseCellMotion]
  enableMouseAllMotion log := log ++ [Directive.enableMouseAllMotion]
  disableMouseAllMotion log := log ++ [Directive.disableMouseAllMotion]
  setWindowTitle title log := log ++ [Directive.setWindowTitle title]

/-- The directives a run has issued to a recording renderer: the log held by
the renderer of the resulting program (empty when the run panicked or no
renderer is attached). -/
def issued {φ : Type} (run : Except Panic (Program (List Directive) φ)) : List Directive :=
  match run with
  | Except.ok p => p.renderer.getD []
  | Except.error _ => []

/-- A program handle with a recording renderer attached that has received no
directive yet. -/
def fresh : Program (List Directive) Unit := { renderer := some [], rest := () }

/-- A program handle with no renderer attached (`renderer == nil`). -/
def headless : Program (List Directive) Unit := { renderer := none, rest := () }

/-! ## The factories as calls in a running program

The factories above are the values the Go functions return. To speak about what
a call does to the running program, each factory is embedded once more as a
call executed in a state: the call may read the state, change it, or panic. -/

/-- A call of a Go function while the process is in a state of type `σ` (for
instance the program handle together with its renderer): the call either
panics or returns a value together with the state after the call. -/
abbrev Exec (σ α : Type) : Type := StateT σ (Except Panic) α

namespace Call

/-- Go: `func ClearScreen() Msg { return clearScreenMsg{} }`. -/
def ClearScreen {σ : Type} : Exec σ Msg := do
  return Msg.clearScreenMsg {}

/-- Go: `func EnterAltScreen() Msg { return enterAltScreenMsg{} }`. -/
def EnterAltScreen {σ : Type} : Exec σ Msg := do
  return Msg.enterAltScreenMsg {}

/-- Go: `func ExitAltScreen() Msg { return exitAltScreenMsg{} }`. -/
def ExitAltScreen {σ : Type} : Exec σ Msg := do
  return Msg.exitAltScreenMsg {}

/-- Go: `func EnableMouseCellMotion() Msg { return enableMouseCellMotionMsg{} }`. -/
def EnableMouseCellMotion {σ : Type} : Exec σ Msg := do
  return Msg.enableMouseCellMotionMsg {}

/-- Go: `func EnableMouseAllMotion() Msg { return enableMouseAllMotionMsg{} }`. -/
def EnableMouseAllMotion {σ : Type} : Exec σ Msg := do
  return Msg.enableMouseAllMotionMsg {}

/-- Go: `func DisableMouse() Msg { return disableMouseMsg{} }`. -/
def DisableMouse {σ : Type} : Exec σ Msg := do
  return Msg.disableMouseMsg {}

/-- Go: `func HideCursor() Msg { return hideCursorMsg{} }`. -/
def HideCursor {σ : Type} : Exec σ Msg := do
  return Msg.hideCursorMsg {}

/-- Go: `func ShowCursor() Msg { return showCursorMsg{} }`. -/
def ShowCursor {σ : Type} : Exec σ Msg := do
  return Msg.showCursorMsg {}

/-- Go: `func EnableBracketedPaste() Msg { return enableBracketedPasteMsg{} }`. -/
def EnableBracketedPaste {σ : Type} : Exec σ Msg := do
  return Msg.enableBracketedPasteMsg {}

/-- Go: `func DisableBracketedPaste() Msg { return disableBracketedPasteMsg{} }`. -/
def DisableBracketedPaste {σ : Type} : Exec σ Msg := do
  return Msg.disableBracketedPasteMsg {}

/-- Go: `func RequestBackgroundColor() Msg { return requestBackgroundColorMsg{} }`. -/
def RequestBackgroundColor {σ : Type} : Exec σ Msg := do
  return Msg.requestBackgroundColorMsg {}

/-- Go: `func RequestForegroundColor() Msg { return requestForegroundColorMsg{} }`. -/
def RequestForegroundColor {σ : Type} : Exec σ Msg := do
  return Msg.requestForegroundColorMsg {}

/-- Go: `func RequestCursorColor() Msg { return requestCursorColorMsg{} }`. -/
def RequestCursorColor {σ : Type} : Exec σ Msg := do
  return Msg.requestCursorColorMsg {}

/-- Go: `func EnableEnhancedKeyboard() Msg { return enableEnhancedKeyboardMsg{} }`. -/
def EnableEnhancedKeyboard {σ : Type} : Exec σ Msg := do
  return Msg.enableEnhancedKeyboardMsg {}

/-- Go: `func EnableCustomEnhancedKeyboard(flags int) Msg { return enableEnhancedKeyboardMsg{flags} }`. -/
def EnableCustomEnhancedKeyboard {σ : Type} (flags : Int) : Exec σ Msg := do
  return Msg.enableEnhancedKeyboardMsg ⟨flags⟩

/-- Go: `func DisableEnhancedKeyboard() Msg { return disableEnhancedKeyboardMsg{} }`. -/
def DisableEnhancedKeyboard {σ : Type} : Exec σ Msg := do
  return Msg.disableEnhancedKeyboardMsg {}

/-- Go: `func RequestEnhancedKeyboard() Msg { return requestEnhancedKeyboardMsg{} }`. -/
def RequestEnhancedKeyboard {σ : Type} : Exec σ Msg := do
  return Msg.requestEnhancedKeyboardMsg {}

/-- Go: `func RequestPrimaryDeviceAttributes() Msg { return requestPrimaryDeviceAttributesMsg{} }`. -/
def RequestPrimaryDeviceAttributes {σ : Type} : Exec σ Msg := do
  return Msg.requestPrimaryDeviceAttributesMsg {}

end Call

/-! ## The command catalogue -/

/-- C1: `EnableCustomEnhancedKeyboard(0)` and `EnableEnhancedKeyboard()` return
the same message, an `enableEnhancedKeyboardMsg` whose `flags` field is 0, so
every consumer of messages maps the two to the same result. -/
theorem enableCustomEnhancedKeyboard_zero_eq_enableEnhancedKeyboard :
    EnableCustomEnhancedKeyboard 0 = EnableEnhancedKeyboard ∧
    (∃ v : enableEnhancedKeyboardMsg,
      EnableEnhancedKeyboard = Msg.enableEnhancedKeyboardMsg v ∧ v.flags = 0) ∧
    (∀ (β : Type) (consumer : Msg → β),
      consumer (EnableCustomEnhancedKeyboard 0) = consumer EnableEnhancedKeyboard) :=
  ⟨rfl, ⟨{}, rfl, rfl⟩, fun _ _ => rfl⟩

/-- The message a factory call returns is the value of the factory, whatever
the state the call runs in. -/
theorem factory_call_returns_value {σ : Type} (w : σ) (flags : Int) :
    [StateT.run Call.ClearScreen w, StateT.run Call.EnterAltScreen w,
     StateT.run Call.ExitAltScreen w, StateT.run Call.EnableMouseCellMotion w,
     StateT.run Call.EnableMouseAllMotion w, StateT.run Call.DisableMouse w,
     StateT.run Call.HideCursor w, StateT.run Call.ShowCursor w,
     StateT.run Call.EnableBracketedPaste w, StateT.run Call.DisableBracketedPaste w,
     StateT.run Call.RequestBackgroundColor w, StateT.run Call.RequestForegroundColor w,
     StateT.run Call.RequestCursorColor w, StateT.run Call.EnableEnhancedKeyboard w,
     StateT.run Call.DisableEnhancedKeyboard w, StateT.run Call.RequestEnhancedKeyboard w,
     StateT.run Call.RequestPrimaryDeviceAttributes w,
     StateT.run (Call.EnableCustomEnhancedKeyboard flags) w]
      = (zeroArgFactories ++ [EnableCustomEnhancedKeyboard flags]).map
          (fun m => Except.ok (m, w)) :=
  rfl

/-- C6: every factory of the catalogue is pure and total. Called in any state
`p` of the program handle (renderer included) and, for
`EnableCustomEnhancedKeyboard`, with any integer flags, negative or not, the
call returns normally (it does not panic), the program and its renderer after
the call are `p` itself, and the message returned is the fixed message of that
factory (for `EnableCustomEnhancedKeyboard` the message carrying exactly the
given flags). The message does not depend on the state: two calls with equal
arguments in any two program states return equal messages. -/
theorem factory_calls_pure_total {ρ φ : Type} (p : Program ρ φ) (flags : Int) :
    (StateT.run Call.ClearScreen p = Except.ok (Msg.clearScreenMsg {}, p) ∧
     StateT.run Call.EnterAltScreen p = Except.ok (Msg.enterAltScreenMsg {}, p) ∧
     StateT.run Call.ExitAltScreen p = Except.ok (Msg.exitAltScreenMsg {}, p) ∧
     StateT.run Call.EnableMouseCellMotion p
        = Except.ok (Msg.enableMouseCellMotionMsg {}, p) ∧
     StateT.run Call.EnableMouseAllMotion p
        = Except.ok (Msg.enableMouseAllMotionMsg {}, p) ∧
     StateT.run Call.DisableMouse p = Except.ok (Msg.disableMouseMsg {}, p) ∧
     StateT.run Call.HideCursor p = Except.ok (Msg.hideCursorMsg {}, p) ∧
     StateT.run Call.ShowCursor p = Except.ok (Msg.showCursorMsg {}, p) ∧
     StateT.run Call.EnableBracketedPaste p
        = Except.ok (Msg.enableBracketedPasteMsg {}, p) ∧
     StateT.run Call.DisableBracketedPaste p
        = Except.ok (Msg.disableBracketedPasteMsg {}, p) ∧
     StateT.run Call.RequestBackgroundColor p
        = Except.ok (Msg.requestBackgroundColorMsg {}, p) ∧
     StateT.run Call.RequestForegroundColor p
        = Except.ok (Msg.requestForegroundColorMsg {}, p) ∧
     StateT.run Call.RequestCursorColor p
        = Except.ok (Msg.requestCursorColorMsg {}, p) ∧
     StateT.run Call.EnableEnhancedKeyboard p
        = Except.ok (Msg.enableEnhancedKeyboardMsg { flags := 0 }, p) ∧
     StateT.run Call.DisableEnhancedKeyboard p
        = Except.ok (Msg.disableEnhancedKeyboardMsg {}, p) ∧
     StateT.run Call.RequestEnhancedKeyboard p
        = Except.ok (Msg.requestEnhancedKeyboardMsg {}, p) ∧
     StateT.run Call.RequestPrimaryDeviceAttributes p
        = Except.ok (Msg.requestPrimaryDeviceAttributesMsg {}, p) ∧
     StateT.run (Call.EnableCustomEnhancedKeyboard flags) p
        = Except.ok (Msg.enableEnhancedKeyboardMsg { flags := flags }, p)) ∧
    (∀ (q : Program ρ φ) (g : Int), flags = g →
      Except.map Prod.fst (StateT.run (Call.EnableCustomEnhancedKeyboard flags) p)
        = Except.map Prod.fst (StateT.run (Call.EnableCustomEnhancedKeyboard g) q)) := by
  refine ⟨⟨rfl, rfl, rfl, rfl, rfl, rfl, rfl, rfl, rfl, rfl, rfl, rfl, rfl, rfl, rfl, rfl,
    rfl, rfl⟩, ?_⟩
  intro q g h
  rw [h]
  rfl

/-- C7: `EnableCustomEnhancedKeyboard` carries its flags unchanged: the result
is an `enableEnhancedKeyboardMsg` whose `flags` field is the argument, so the
factory is injective and its result equals that of `EnableEnhancedKeyboard`
exactly at flags 0. -/
theorem enableCustomEnhancedKeyboard_carries_flags :
    (∀ flags : Int, ∃ v : enableEnhancedKeyboardMsg,
      EnableCustomEnhancedKeyboard flags = Msg.enableEnhancedKeyboardMsg v ∧
      v.flags = flags) ∧
    (∀ f g : Int,
      EnableCustomEnhancedKeyboard f = EnableCustomEnhancedKeyboard g ↔ f = g) ∧
    (∀ f : Int, EnableCustomEnhancedKeyboard f = EnableEnhancedKeyboard ↔ f = 0) := by
  refine ⟨?_, ?_, ?_⟩
  · intro flags
    exact ⟨⟨flags⟩, rfl, rfl⟩
  · intro f g
    constructor
    · intro h
      have hv := Msg.enableEnhancedKeyboardMsg.inj h
      exact congrArg enableEnhancedKeyboardMsg.flags hv
    · intro h
      rw [h]
  · intro f
    constructor
    · intro h
      have hv := Msg.enableEnhancedKeyboardMsg.inj h
      exact congrArg enableEnhancedKeyboardMsg.flags hv
    · intro h
      rw [h]
      rfl

/-- C8: the messages of the seventeen zero-argument factories are pairwise
different values, and for every flags value the message of
`EnableCustomEnhancedKeyboard` differs from the message of each zero-argument
factory other than `EnableEnhancedKeyboard`. -/
theorem factory_messages_distinct :
    zeroArgFactories.Pairwise (fun a b => a ≠ b) ∧
    (∀ flags : Int, ∀ m ∈ zeroArgFactories, m ≠ EnableEnhancedKeyboard →
      EnableCustomEnhancedKeyboard flags ≠ m) := by
  constructor
  · decide
  · intro flags m hm hne
    simp only [zeroArgFactories, List.mem_cons, List.mem_singleton, List.mem_nil_iff,
      or_false] at hm
    rcases hm with h | h | h | h | h | h | h | h | h | h | h | h | h | h | h | h | h
    all_goals first
      | exact absurd h hne
      | (subst h; intro hc; cases hc)

/-! ## The deprecated entry points of the program handle -/

/-- A renderer method call on a program whose renderer is attached runs the
method on the renderer and returns normally. -/
theorem Program.callRenderer_some {ρ φ : Type} (m : ρ → ρ) (p : Program ρ φ) (r : ρ)
    (h : p.renderer = some r) :
    p.callRenderer m = Except.ok { p with renderer := some (m r) } := by
  unfold Program.callRenderer
  rw [h]

/-- C2: when no renderer is attached, `Program.EnterAltScreen` and
`Program.ExitAltScreen` return normally and leave the program state as it was
(the renderer stays nil, so no directive has been issued to anything). -/
theorem altScreen_without_renderer_noop {ρ φ : Type} (impl : Tea.renderer ρ)
    (p : Program ρ φ) (h : p.renderer = none) :
    Program.EnterAltScreen impl p = Except.ok p ∧
    Program.ExitAltScreen impl p = Except.ok p := by
  simp [Program.EnterAltScreen, Program.ExitAltScreen, h]

/-- Witness of C2 at the headless program. -/
theorem altScreen_without_renderer_noop_witness :
    headless.renderer = none ∧
    (Program.EnterAltScreen recorder headless = Except.ok headless ∧
     Program.ExitAltScreen recorder headless = Except.ok headless) :=
  ⟨rfl, altScreen_without_renderer_noop recorder headless rfl⟩

/-- C3, the code at the failing input: with no renderer attached each of the
five unguarded entry points panics with a nil pointer dereference instead of
returning normally. -/
theorem mouse_and_title_without_renderer_panic :
    Program.EnableMouseCellMotion recorder headless
      = Except.error Panic.nilPointerDereference ∧
    Program.DisableMouseCellMotion recorder headless
      = Except.error Panic.nilPointerDereference ∧
    Program.EnableMouseAllMotion recorder headless
      = Except.error Panic.nilPointerDereference ∧
    Program.DisableMouseAllMotion recorder headless
      = Except.error Panic.nilPointerDereference ∧
    Program.SetWindowTitle recorder headless "demo"
      = Except.error Panic.nilPointerDereference :=
  ⟨rfl, rfl, rfl, rfl, rfl⟩

/-- C5, counterexample: on a program with a recording renderer attached and no
directive issued yet, `Program.EnableMouseCellMotion` followed by
`Program.EnableMouseAllMotion` issues two directives, with no disable directive
between them (likewise in the other order). -/
theorem enableMouse_switch_issues_no_disable :
    issued (Program.EnableMouseCellMotion recorder fresh
              >>= Program.EnableMouseAllMotion recorder)
      = [Directive.enableMouseCellMotion, Directive.enableMouseAllMotion] ∧
    issued (Program.EnableMouseCellMotion recorder fresh
              >>= Program.EnableMouseAllMotion recorder)
      ≠ [Directive.enableMouseCellMotion, Directive.disableMouseCellMotion,
         Directive.enableMouseAllMotion] ∧
    issued (Program.EnableMouseAllMotion recorder fresh
              >>= Program.EnableMouseCellMotion recorder)
      = [Directive.enableMouseAllMotion, Directive.enableMouseCellMotion] ∧
    issued (Program.EnableMouseAllMotion recorder fresh
              >>= Program.EnableMouseCellMotion recorder)
      ≠ [Directive.enableMouseAllMotion, Directive.disableMouseAllMotion,
         Directive.enableMouseCellMotion] := by
  refine ⟨rfl, ?_, rfl, ?_⟩ <;> decide

/-- C5, amended: with a renderer attached, `Program.EnableMouseCellMotion`
followed by `Program.EnableMouseAllMotion` invokes the renderer methods
`enableMouseCellMotion` and then `enableMouseAllMotion`, and nothing else
(symmetrically in the other order); a recording renderer receives exactly these
two directives. -/
theorem enableMouse_switch_issues_two {ρ φ : Type} (impl : Tea.renderer ρ)
    (p : Program ρ φ) (r : ρ) (h : p.renderer = some r) :
    (Program.EnableMouseCellMotion impl p >>= Program.EnableMouseAllMotion impl)
      = Except.ok { p with
          renderer := some (impl.enableMouseAllMotion (impl.enableMouseCellMotion r)) } ∧
    (Program.EnableMouseAllMotion impl p >>= Program.EnableMouseCellMotion impl)
      = Except.ok { p with
          renderer := some (impl.enableMouseCellMotion (impl.enableMouseAllMotion r)) } ∧
    (∀ (q : Program (List Directive) φ) (log : List Directive), q.renderer = some log →
      issued (Program.EnableMouseCellMotion recorder q
                >>= Program.EnableMouseAllMotion recorder)
        = log ++ [Directive.enableMouseCellMotion, Directive.enableMouseAllMotion] ∧
      issued (Program.EnableMouseAllMotion recorder q
                >>= Program.EnableMouseCellMotion recorder)
        = log ++ [Directive.enableMouseAllMotion, Directive.enableMouseCellMotion]) := by
  refine ⟨?_, ?_, ?_⟩
  · simp [Program.EnableMouseCellMotion, Program.EnableMouseAllMotion,
      Program.callRenderer, h, bind, Except.bind]
  · simp [Program.EnableMouseCellMotion, Program.EnableMouseAllMotion,
      Program.callRenderer, h, bind, Except.bind]
  · intro q log hq
    simp [Program.EnableMouseCellMotion, Program.EnableMouseAllMotion,
      Program.callRenderer, hq, bind, Except.bind, issued, recorder]

/-- Witness of the amended C5 at the fresh program with a recording renderer. -/
theorem enableMouse_switch_issues_two_witness :
    fresh.renderer = some [] ∧
    ((Program.EnableMouseCellMotion recorder fresh >>= Program.EnableMouseAllMotion recorder)
      = Except.ok { fresh with
          renderer := some (recorder.enableMouseAllMotion
            (recorder.enableMouseCellMotion [])) } ∧
     (Program.EnableMouseAllMotion recorder fresh >>= Program.EnableMouseCellMotion recorder)
      = Except.ok { fresh with
          renderer := some (recorder.enableMouseCellMotion
            (recorder.enableMouseAllMotion [])) } ∧
     (∀ (q : Program (List Directive) Unit) (log : List Directive), q.renderer = some log →
      issued (Program.EnableMouseCellMotion recorder q
                >>= Program.EnableMouseAllMotion recorder)
        = log ++ [Directive.enableMouseCellMotion, Directive.enableMouseAllMotion] ∧
      issued (Program.EnableMouseAllMotion recorder q
                >>= Program.EnableMouseCellMotion recorder)
        = log ++ [Directive.enableMouseAllMotion, Directive.enableMouseCellMotion])) :=
  ⟨rfl, enableMouse_switch_issues_two recorder fresh [] rfl⟩

/-- C9: with a renderer attached, each deprecated entry point returns normally
after invoking exactly the renderer method of its own name, once
(`SetWindowTitle` with the title it was given); the program after the call is
the program before it with only the renderer replaced by the renderer after
that one method call. A recording renderer therefore receives exactly one
directive, the one of the same name. -/
theorem entry_points_forward_one_directive {ρ φ : Type} (impl : Tea.renderer ρ)
    (p : Program ρ φ) (r : ρ) (h : p.renderer = some r) :
    (Program.EnterAltScreen impl p
        = Except.ok { p with renderer := some (impl.enterAltScreen r) } ∧
     Program.ExitAltScreen impl p
        = Except.ok { p with renderer := some (impl.exitAltScreen r) } ∧
     Program.EnableMouseCellMotion impl p
        = Except.ok { p with renderer := some (impl.enableMouseCellMotion r) } ∧
     Program.DisableMouseCellMotion impl p
        = Except.ok { p with renderer := some (impl.disableMouseCellMotion r) } ∧
     Program.EnableMouseAllMotion impl p
        = Except.ok { p with renderer := some (impl.enableMouseAllMotion r) } ∧
     Program.DisableMouseAllMotion impl p
        = Except.ok { p with renderer := some (impl.disableMouseAllMotion r) } ∧
     (∀ title : String, Program.SetWindowTitle impl p title
        = Except.ok { p with renderer := some (impl.setWindowTitle title r) })) ∧
    (∀ (q : Program (List Directive) φ) (log : List Directive), q.renderer = some log →
      Program.EnterAltScreen recorder q
        = Except.ok { q with renderer := some (log ++ [Directive.enterAltScreen]) } ∧
      Program.ExitAltScreen recorder q
        = Except.ok { q with renderer := some (log ++ [Directive.exitAltScreen]) } ∧
      Program.EnableMouseCellMotion recorder q
        = Except.ok { q with renderer := some (log ++ [Directive.enableMouseCellMotion]) } ∧
      Program.DisableMouseCellMotion recorder q
        = Except.ok { q with renderer := some (log ++ [Directive.disableMouseCellMotion]) } ∧
      Program.EnableMouseAllMotion recorder q
        = Except.ok { q with renderer := some (log ++ [Directive.enableMouseAllMotion]) } ∧
      Program.DisableMouseAllMotion recorder q
        = Except.ok { q with renderer := some (log ++ [Directive.disableMouseAllMotion]) } ∧
      (∀ title : String, Program.SetWindowTitle recorder q title
        = Except.ok { q with renderer := some (log ++ [Directive.setWindowTitle title]) })) := by
  have key : ∀ {σ : Type} (i : Tea.renderer σ) (q : Program σ φ) (s : σ),
      q.renderer = some s →
      (Program.EnterAltScreen i q
          = Except.ok { q with renderer := some (i.enterAltScreen s) } ∧
       Program.ExitAltScreen i q
          = Except.ok { q with renderer := some (i.exitAltScreen s) } ∧
       Program.EnableMouseCellMotion i q
          = Except.ok { q with renderer := some (i.enableMouseCellMotion s) } ∧
       Program.DisableMouseCellMotion i q
          = Except.ok { q with renderer := some (i.disableMouseCellMotion s) } ∧
       Program.EnableMouseAllMotion i q
          = Except.ok { q with renderer := some (i.enableMouseAllMotion s) } ∧
       Program.DisableMouseAllMotion i q
          = Except.ok { q with renderer := some (i.disableMouseAllMotion s) } ∧
       (∀ title : String, Program.SetWindowTitle i q title
          = Except.ok { q with renderer := some (i.setWindowTitle title s) })) := by
    intro σ i q s hq
    refine ⟨?_, ?_, ?_, ?_, ?_, ?_, ?_⟩
    · simp [Program.EnterAltScreen, hq, Program.callRenderer_some _ q s hq]
    · simp [Program.ExitAltScreen, hq, Program.callRenderer_some _ q s hq]
    · exact Program.callRenderer_some _ q s hq
    · exact Program.callRenderer_some _ q s hq
    · exact Program.callRenderer_some _ q s hq
    · exact Program.callRenderer_some _ q s hq
    · intro title
      exact Program.callRenderer_some _ q s hq
  exact ⟨key impl p r h, fun q log hq => key recorder q log hq⟩

/-- Witness of C9 at the fresh program with a recording renderer. -/
theorem entry_points_forward_one_directive_witness :
    fresh.renderer = some [] ∧
    Program.EnterAltScreen recorder fresh
      = Except.ok { fresh with renderer := some [Directive.enterAltScreen] } ∧
    Program.DisableMouseAllMotion recorder fresh
      = Except.ok { fresh with renderer := some [Directive.disableMouseAllMotion] } ∧
    Program.SetWindowTitle recorder fresh "demo"
      = Except.ok { fresh with renderer := some [Directive.setWindowTitle "demo"] } :=
  have w := (entry_points_forward_one_directive recorder fresh [] rfl).2 fresh [] rfl
  ⟨rfl, w.1, w.2.2.2.2.2.1, w.2.2.2.2.2.2 "demo"⟩

end Tea
